import Mathlib

/-!
Formal model of the sertamulia skin-lesion classification service.

The repository contains three near-duplicate revisions of the same Flask
service:

* `src/app.py`          — handler `post_predict_handler`, inference
  `predict_classification`, store helper `store_data`;
* `src/main.py`         — handler `predict_handler`, inference
  `predict_classification`, store helper `store_prediction_data`;
* `src/server/*.py` together with `src/services/*.py` — handler
  `post_predict_handler` (server/handler.py), inference
  `predict_classification` (services/inferenceService.py), store helper
  `store_data` (services/storeData.py), error handlers (server/server.py).

Floats are modelled as rationals (all the arithmetic performed by the code
— max, argmax, multiplication by 100, division by 255, comparisons — is
exact).  External collaborators (the TensorFlow image decoder and the
loaded model) are parameters of the pipelines: a decoder is a function
from the raw bytes to `Except String Image`, a model is a function from
the preprocessed tensor to `Except String (List ℚ)`, where `.error`
represents the library call raising an exception with that message.

`tf.image.resize` (bilinear, half-pixel centers, edge clamping) is
embedded concretely, because the preprocessing contract (shape
`[1,224,224,3]`, values in `[0,1]`) depends on it.

Two bugs of the server revision are embedded as they actually execute:
`services/inferenceService.py` line 9 calls `.resize([224, 224])` on the
tensor returned by `tf.image.decode_jpeg`, and TensorFlow tensors have no
`resize` method — so every decodable input raises AttributeError inside
the try block, is re-raised as InputError, and the model invocation,
classification and advisory code further down is dead; and
`server/handler.py` line 17 tuple-unpacks the dict returned by
`predict_classification`, binding its four key strings, so even if a
value were returned the threshold comparison on line 34 would raise
TypeError.  `Server.predict_classification` therefore errors on every
input and the 201 branch of `Server.post_predict_handler` is
unreachable.  The definition `servicePreprocess` — the tensor the service
code tries to build, resize semantics granted but with its missing
normalization — exists only as the exhibit for the preprocessing-contract
claim, and no pipeline uses it.
-/

namespace Sertamulia

/-- JSON-style values appearing in the persisted record and in response
bodies (`None` in Python becomes `null`). -/
inductive JVal where
  | str : String → JVal
  | num : ℚ → JVal
  | null : JVal
  deriving DecidableEq

/-- Python `None`-or-string turned into a record value. -/
def optStr : Option String → JVal
  | some s => .str s
  | none => .null

/-- Raw uploaded bytes (`image.read()`). -/
abbrev ByteSeq : Type := List Nat

/-- A decoded image: height, width, and a pixel function
(row, column, channel ↦ value).  `tf.image.decode_image(..., channels=3)`
yields uint8 data, captured by `Image.valid` below. -/
structure Image where
  h : Nat
  w : Nat
  pix : Nat → Nat → Nat → ℚ

/-- Decoded uint8 pixel data: every value lies in `[0, 255]`. -/
def Image.valid (img : Image) : Prop :=
  ∀ i j c, 0 ≤ img.pix i j c ∧ img.pix i j c ≤ 255

/-- Source coordinate used by `tf.image.resize` (half-pixel centers):
`(i + 0.5) * inSize / outSize - 0.5`. -/
def srcCoord (inSize outSize i : Nat) : ℚ :=
  ((i : ℚ) + 1 / 2) * inSize / outSize - 1 / 2

/-- Clamp an integer sample index into `[0, n - 1]` (edge replication;
`Int.toNat` already sends negatives to 0). -/
def clampIdx (n : Nat) (x : Int) : Nat :=
  (min x ((n : Int) - 1)).toNat

/-- Linear interpolation `(1 - t) * a + t * b`. -/
def lerp (t a b : ℚ) : ℚ :=
  (1 - t) * a + t * b

/-- One output pixel of `tf.image.resize(image, [224, 224])`: bilinear
interpolation of the four clamped neighbours of the source coordinate. -/
def resizePix (img : Image) (i j c : Nat) : ℚ :=
  let sy := srcCoord img.h 224 i
  let sx := srcCoord img.w 224 j
  let y0 : Int := ⌊sy⌋
  let x0 : Int := ⌊sx⌋
  let fy := sy - (y0 : ℚ)
  let fx := sx - (x0 : ℚ)
  let p : Int → Int → ℚ := fun a b => img.pix (clampIdx img.h a) (clampIdx img.w b) c
  lerp fy (lerp fx (p y0 x0) (p y0 (x0 + 1))) (lerp fx (p (y0 + 1) x0) (p (y0 + 1) (x0 + 1)))

/-- The `[1, 224, 224, 3]` input tensor as nested lists. -/
abbrev Tensor : Type := List (List (List (List ℚ)))

/-- app.py lines 81-84 and main.py lines 135-138: decode, resize to
224×224, `expand_dims`, cast to float32 and divide by 255. -/
def preprocess (img : Image) : Tensor :=
  [(List.range 224).map fun i =>
    (List.range 224).map fun j =>
      (List.range 3).map fun c => resizePix img i j c / 255]

/-- Exhibit for the preprocessing-contract claim: the tensor
services/inferenceService.py lines 7-12 try to build — resize to
224×224, wrap in a singleton batch, cast to float32, with NO division by
255.  As noted in the module comment, the `.resize` call is not a tensor
method and raises at runtime, so the live service pipeline
(`Server.predict_classification` below) never builds any tensor; this
definition is used by no pipeline. -/
def servicePreprocess (img : Image) : Tensor :=
  [(List.range 224).map fun i =>
    (List.range 224).map fun j =>
      (List.range 3).map fun c => resizePix img i j c]

/-- Top-left value of a tensor (batch 0, row 0, column 0, channel 0). -/
def t0 (t : Tensor) : ℚ :=
  t.headI.headI.headI.headI

/-- A loaded model: maps the preprocessed tensor to the score vector;
`.error` represents the invocation raising an exception. -/
abbrev ModelFn : Type := Tensor → Except String (List ℚ)

/-- The image decoder environment: `.error` represents
`tf.image.decode_image` / `decode_jpeg` raising on undecodable bytes. -/
abbrev DecodeFn : Type := ByteSeq → Except String Image

/-- Embedding of `tf.reduce_max` over the score vector (app.py line 87, main.py line
142, and Python `max(scores)` in inferenceService.py line 17). -/
def reduceMax : List ℚ → ℚ
  | [] => 0
  | [x] => x
  | x :: y :: ys => max x (reduceMax (y :: ys))

/-- Embedding of `tf.argmax`: index of the largest score, the lowest index winning
ties (app.py line 91, main.py line 143, inferenceService.py line 20). -/
def argmaxIdx : List ℚ → Nat
  | [] => 0
  | [_] => 0
  | x :: y :: ys => if x < reduceMax (y :: ys) then argmaxIdx (y :: ys) + 1 else 0

/-- The fixed ordered class list (identical in all three revisions). -/
def classes : List String :=
  ["Melanocytic nevus", "Squamous cell carcinoma", "Vascular lesion"]

/-- Confidence and label extraction shared by all three revisions:
`confidence = reduce_max(prediction) * 100`,
`label = classes[argmax(prediction)]`.  Python list indexing raises
IndexError when the arg-max index falls outside the class list, which the
callers catch; this is the `.error` case. -/
def classify (scores : List ℚ) : Except String (ℚ × String) :=
  let confidence := reduceMax scores * 100
  match classes[argmaxIdx scores]? with
  | some label => .ok (confidence, label)
  | none => .error ("IndexError: list index out of range")

/-- app.py line 97 (also inferenceService.py line 26). -/
def mnExp : String :=
  "Melanocytic nevus adalah kondisi permukaan kulit memiliki bercak warna yang berasal dari sel-sel melanosit, yakni pembentukan warna kulit dan rambut."

/-- app.py line 98 (also inferenceService.py line 27). -/
def mnSug : String :=
  "Segera konsultasi dengan dokter terdekat jika ukuran semakin membesar dengan cepat, mudah luka, atau berdarah."

/-- app.py line 101 (also inferenceService.py line 29). -/
def sccExp : String :=
  "Squamous cell carcinoma adalah jenis kanker kulit yang umum dijumpai. Penyakit ini sering tumbuh pada bagian-bagian tubuh yang sering terkena sinar UV."

/-- app.py line 102 (also inferenceService.py line 30). -/
def sccSug : String :=
  "Segera konsultasi dengan dokter terdekat untuk meminimalisasi penyebaran kanker."

/-- app.py line 105 (also inferenceService.py line 32). -/
def vlExp : String :=
  "Vascular lesion adalah penyakit yang dikategorikan sebagai kanker atau tumor. Penyakit ini sering muncul pada bagian kepala dan leher."

/-- app.py line 106 (also inferenceService.py line 33). -/
def vlSug : String :=
  "Segera konsultasi dengan dokter terdekat untuk mengetahui detail terkait tingkat bahaya penyakit."

/-- main.py line 152. -/
def mMnExp : String :=
  "Melanocytic nevus adalah kondisi permukaan kulit memiliki bercak warna yang berasal dari sel-sel melanosit."

/-- main.py line 153. -/
def mMnSug : String :=
  "Segera konsultasi dengan dokter jika ada perubahan ukuran atau warna."

/-- main.py line 155. -/
def mSccExp : String :=
  "Squamous cell carcinoma adalah jenis kanker kulit yang sering muncul di area terkena sinar UV."

/-- main.py line 156. -/
def mSccSug : String :=
  "Segera konsultasi dengan dokter untuk mencegah penyebaran."

/-- main.py line 158. -/
def mVlExp : String :=
  "Vascular lesion adalah tumor atau kanker yang sering muncul di kepala dan leher."

/-- main.py line 159. -/
def mVlSug : String :=
  "Konsultasikan dengan dokter untuk tindakan lebih lanjut."

/-- app.py lines 94-106: `explanation, suggestion = "", ""` followed by
an if/elif chain on the label; a label outside the chain keeps the empty
defaults. -/
def appAdvisory (label : String) : String × String :=
  if label = "Melanocytic nevus" then (mnExp, mnSug)
  else if label = "Squamous cell carcinoma" then (sccExp, sccSug)
  else if label = "Vascular lesion" then (vlExp, vlSug)
  else ("", "")

/-- main.py lines 150-159: same shape, different texts, same empty-string
defaults. -/
def mainAdvisory (label : String) : String × String :=
  if label = "Melanocytic nevus" then (mMnExp, mMnSug)
  else if label = "Squamous cell carcinoma" then (mSccExp, mSccSug)
  else if label = "Vascular lesion" then (mVlExp, mVlSug)
  else ("", "")

/-- inferenceService.py lines 24-33: `explanation, suggestion = None,
None` followed by the if/elif chain; an unmatched label keeps `None`. -/
def svcAdvisory (label : String) : Option String × Option String :=
  if label = "Melanocytic nevus" then (some mnExp, some mnSug)
  else if label = "Squamous cell carcinoma" then (some sccExp, some sccSug)
  else if label = "Vascular lesion" then (some vlExp, some vlSug)
  else (none, none)

/-- Successful inference result of app.py / main.py
`predict_classification`: `(confidence_score, label, explanation,
suggestion)`. -/
structure PredictOk where
  confidence : ℚ
  label : String
  explanation : String
  suggestion : String
  deriving DecidableEq

/-- Successful inference result of inferenceService.py
`predict_classification`: the returned dict, whose explanation and
suggestion may be Python `None`. -/
structure SvcOk where
  confidenceScore : ℚ
  label : String
  explanation : Option String
  suggestion : Option String
  deriving DecidableEq

/-- app.py line 111 / inferenceService.py line 42: every exception inside
the try block is re-raised as `InputError(f"Terjadi kesalahan input: {e}")`. -/
def inputErrMsg (e : String) : String :=
  "Terjadi kesalahan input: " ++ e

/-- app.py line 140 / server handler line 33. -/
def successMsg : String :=
  "Model is predicted successfully."

/-- app.py line 140 (no trailing period). -/
def underMsgApp : String :=
  "Model is predicted successfully but under threshold. Please use the correct picture"

/-- server/handler.py line 35 (with trailing period). -/
def underMsgServer : String :=
  "Model is predicted successfully but under threshold. Please use the correct picture."

/-- main.py line 203. -/
def mainOkMsg : String :=
  "Prediksi berhasil"

/-- main.py line 203. -/
def mainLowMsg : String :=
  "Prediksi diselesaikan dengan kepercayaan rendah"

/-- Modelled from the source: the text of the AttributeError raised by
the nonexistent `resize` method on the decoded tensor
(inferenceService.py line 9); the exact wording is a TensorFlow runtime
artifact, held abstract as this constant. -/
def svcResizeErr : String :=
  "AttributeError: EagerTensor object has no attribute resize"

/-- Modelled from the source: the text of the TypeError that the
dead-code comparison between an unpacked key string and the int 99
(handler.py lines 17 and 34) would raise; the exact wording is a Python
runtime artifact, held abstract as this constant. -/
def svcTypeErr : String :=
  "TypeError: unsupported comparison between str and int"

/-- An HTTP response body `{status, message}` with the optional `data`
record of the success path.  The record is a key-ordered association
list, mirroring the Python dict literal. -/
structure RespBody where
  status : String
  message : String
  data : Option (List (String × JVal))
  deriving DecidableEq

/-- One Firestore write: `db.collection(...).document(id).set(data)`. -/
structure StoreWrite where
  docId : String
  data : List (String × JVal)
  deriving DecidableEq

namespace App

/-- app.py lines 66-72: the write is attempted only when `db` is
initialized; any exception raised by the write (`storeErr`) is caught and
printed, never re-raised, so nothing downstream depends on it.  The
result is the list of attempted writes. -/
def store_data (dbPresent : Bool) (storeErr : Option String) (id : String)
    (data : List (String × JVal)) : List StoreWrite :=
  if dbPresent then [⟨id, data⟩] else []

/-- app.py lines 79-111 `predict_classification`: decode, preprocess,
invoke the model, reduce-max/arg-max, advisory lookup; every exception in
the try block — decode failure, model failure, IndexError — is re-raised
as `InputError("Terjadi kesalahan input: ...")` (a 400-class error). -/
def predict_classification (model : ModelFn) (decode : DecodeFn)
    (imageBytes : ByteSeq) : Except String PredictOk :=
  match decode imageBytes with
  | .error e => .error (inputErrMsg e)
  | .ok img =>
    match model (preprocess img) with
    | .error e => .error (inputErrMsg e)
    | .ok scores =>
      match classify scores with
      | .error e => .error (inputErrMsg e)
      | .ok cl =>
        let adv := appAdvisory cl.2
        .ok ⟨cl.1, cl.2, adv.1, adv.2⟩

/-- app.py lines 114-152 `post_predict_handler`, returning
`(HTTP status, body, Firestore writes)`.  The model handle is checked
first (line 116), before the `image` field; the success threshold on line
140 compares the percentage `confidence_score` against `0.99`; the
generic `except Exception` branch (line 151) is unreachable because
`predict_classification` only raises InputError. -/
def post_predict_handler (model : Option ModelFn) (decode : DecodeFn)
    (imageFile : Option ByteSeq) (dbPresent : Bool) (storeErr : Option String)
    (uuid createdAt : String) : Nat × RespBody × List StoreWrite :=
  match model with
  | none => (500, ⟨"error", "Model not loaded", none⟩, [])
  | some m =>
    match imageFile with
    | none => (400, ⟨"fail", "No image provided", none⟩, [])
    | some bytes =>
      match predict_classification m decode bytes with
      | .error e => (400, ⟨"fail", e, none⟩, [])
      | .ok r =>
        let data : List (String × JVal) :=
          [("id", .str uuid), ("result", .str r.label),
           ("suggestion", .str r.suggestion), ("createdAt", .str createdAt)]
        let writes := store_data dbPresent storeErr uuid data
        let msg := if r.confidence > 99 / 100 then successMsg else underMsgApp
        (201, ⟨"success", msg, some data⟩, writes)

end App

namespace MainRev

/-- main.py lines 131-165 `predict_classification`: same pipeline with
the advisory texts of main.py; every exception is re-raised as
`ValueError(f"Gagal melakukan prediksi: {e}")`. -/
def predict_classification (model : ModelFn) (decode : DecodeFn)
    (imageBytes : ByteSeq) : Except String PredictOk :=
  match decode imageBytes with
  | .error e => .error (("Gagal melakukan prediksi: ") ++ e)
  | .ok img =>
    match model (preprocess img) with
    | .error e => .error (("Gagal melakukan prediksi: ") ++ e)
    | .ok scores =>
      match classify scores with
      | .error e => .error (("Gagal melakukan prediksi: ") ++ e)
      | .ok cl =>
        let adv := mainAdvisory cl.2
        .ok ⟨cl.1, cl.2, adv.1, adv.2⟩

/-- main.py lines 167-212 `predict_handler`.  The model handle is checked
first (line 172); `store_prediction_data` (lines 120-129) only writes
when `db` is initialized and swallows every write exception; the generic
`except Exception` (line 210) turns any inference failure into a 500
`status:"error"` response; the threshold on line 203 is `> 50`. -/
def predict_handler (model : Option ModelFn) (decode : DecodeFn)
    (imageFile : Option ByteSeq) (dbPresent : Bool) (storeErr : Option String)
    (uuid createdAt : String) : Nat × RespBody × List StoreWrite :=
  match model with
  | none => (500, ⟨"error", "Model tidak tersedia", none⟩, [])
  | some m =>
    match imageFile with
    | none => (400, ⟨"gagal", "Tidak ada gambar", none⟩, [])
    | some bytes =>
      match predict_classification m decode bytes with
      | .error e => (500, ⟨"error", ("Kesalahan internal: ") ++ e, none⟩, [])
      | .ok r =>
        let data : List (String × JVal) :=
          [("id", .str uuid), ("result", .str r.label),
           ("explanation", .str r.explanation), ("suggestion", .str r.suggestion),
           ("confidence", .num r.confidence), ("createdAt", .str createdAt)]
        let writes := if dbPresent then [(⟨uuid, data⟩ : StoreWrite)] else []
        let msg := if r.confidence > 50 then mainOkMsg else mainLowMsg
        (201, ⟨"sukses", msg, some data⟩, writes)

end MainRev

namespace Server

/-- services/inferenceService.py lines 4-42 `predict_classification` as
it actually executes: a decoding failure is wrapped as
`InputError(f"Terjadi kesalahan input: {e}")` by the catch-all on lines
41-42, and every decodable input then raises AttributeError at the
`.resize([224, 224])` call on line 9 (tensors have no such method),
wrapped the same way.  The model invocation, max/arg-max classification
and advisory lookup on lines 15-40 are dead code: no input reaches them,
and in particular the model handle is never invoked. -/
def predict_classification (model : Option ModelFn) (decode : DecodeFn)
    (imageBytes : ByteSeq) : Except String SvcOk :=
  match decode imageBytes with
  | .error e => .error (inputErrMsg e)
  | .ok _ => .error (inputErrMsg svcResizeErr)

/-- server/handler.py lines 7-42 `post_predict_handler` combined with the
server.py error handlers, as it actually executes.  There is no
model-availability check; the `image` field is checked first.  The
InputError raised by every inference attempt (see
`Server.predict_classification`) escapes to `handle_input_error`
(server.py lines 15-22): 400, status "fail", the message of the error
plus the suffix seen below.  Lines 18-42 of the handler are dead code:
`predict_classification` never returns.  Were it to return, line 17
tuple-unpacks the returned dict, binding its four KEY strings, so the
record would carry those key strings as values; the unguarded Firestore
write (services/storeData.py) would then run — a throwing store
(`storeErr`) escaping to `handle_exception` (server.py lines 24-31) as
500 `status:"fail"` with the text of the exception — and the threshold
comparison `confidence_score > 99` on line 34 would compare a string
with an int, raising TypeError, likewise answered 500 `status:"fail"`.
The unreachable branch below mirrors that trace; no input reaches it. -/
def post_predict_handler (model : Option ModelFn) (decode : DecodeFn)
    (imageFile : Option ByteSeq) (storeErr : Option String)
    (uuid createdAt : String) : Nat × RespBody × List StoreWrite :=
  match imageFile with
  | none => (400, ⟨"fail", "File gambar tidak ditemukan dalam permintaan.", none⟩, [])
  | some bytes =>
    match predict_classification model decode bytes with
    | .error e => (400, ⟨"fail", e ++ (" Silakan gunakan foto lain."), none⟩, [])
    | .ok _ =>
      let data : List (String × JVal) :=
        [("id", .str uuid), ("result", .str ("label")),
         ("explanation", .str ("explanation")), ("suggestion", .str ("suggestion")),
         ("confidenceScore", .str ("confidenceScore")), ("createdAt", .str createdAt)]
      match storeErr with
      | some e => (500, ⟨"fail", e, none⟩, [⟨uuid, data⟩])
      | none => (500, ⟨"fail", svcTypeErr, none⟩, [⟨uuid, data⟩])

end Server

/-- A concrete 1×1 decoded image with pixel value 120. -/
def cImg : Image :=
  ⟨1, 1, fun _ _ _ => 120⟩

/-- A concrete 1×1 all-white decoded image (every channel at 255). -/
def img255 : Image :=
  ⟨1, 1, fun _ _ _ => 255⟩

/-- A decoder environment that decodes every byte sequence to `cImg`. -/
def cDecode : DecodeFn :=
  fun _ => .ok cImg

/-- A model whose output scores give confidence 30. -/
def cModel30 : ModelFn :=
  fun _ => .ok [3 / 10, 1 / 10, 1 / 10]

/-- A model whose output scores give confidence 60. -/
def cModel60 : ModelFn :=
  fun _ => .ok [3 / 5, 1 / 5, 1 / 5]

/-- A model whose invocation always fails. -/
def cModelFail : ModelFn :=
  fun _ => .error ("boom")

/-- app.py inference result for `cModel30`. -/
def rA30 : PredictOk :=
  ⟨30, "Melanocytic nevus", mnExp, mnSug⟩

/-- app.py inference result for `cModel60`. -/
def rA60 : PredictOk :=
  ⟨60, "Melanocytic nevus", mnExp, mnSug⟩

/-- main.py inference result for `cModel30`. -/
def rM30 : PredictOk :=
  ⟨30, "Melanocytic nevus", mMnExp, mMnSug⟩

/-- main.py inference result for `cModel60`. -/
def rM60 : PredictOk :=
  ⟨60, "Melanocytic nevus", mMnExp, mMnSug⟩

/-- The record app.py builds for `cModel30` with id "u10", time "t10". -/
def cData10 : List (String × JVal) :=
  [("id", .str ("u10")), ("result", .str ("Melanocytic nevus")),
   ("suggestion", .str mnSug), ("createdAt", .str ("t10"))]

/-! ## Helper lemmas on the score-vector operations -/

theorem reduceMax_singleton (x : ℚ) : reduceMax [x] = x := rfl

theorem argmaxIdx_singleton (x : ℚ) : argmaxIdx [x] = 0 := rfl

theorem reduceMax_cons2 (x y : ℚ) (ys : List ℚ) :
    reduceMax (x :: y :: ys) = max x (reduceMax (y :: ys)) := rfl

theorem argmaxIdx_cons2 (x y : ℚ) (ys : List ℚ) :
    argmaxIdx (x :: y :: ys) =
      if x < reduceMax (y :: ys) then argmaxIdx (y :: ys) + 1 else 0 := rfl

theorem argmaxIdx_lt_length (x : ℚ) (xs : List ℚ) :
    argmaxIdx (x :: xs) < (x :: xs).length := by
  induction xs generalizing x with
  | nil => simp [argmaxIdx]
  | cons y ys ih =>
    rw [argmaxIdx_cons2]
    by_cases h : x < reduceMax (y :: ys)
    · rw [if_pos h]
      have h2 := ih y
      simp only [List.length_cons] at h2 ⊢
      omega
    · rw [if_neg h]
      simp

theorem getD_argmaxIdx (x : ℚ) (xs : List ℚ) :
    (x :: xs).getD (argmaxIdx (x :: xs)) 0 = reduceMax (x :: xs) := by
  induction xs generalizing x with
  | nil => simp [argmaxIdx, reduceMax]
  | cons y ys ih =>
    rw [argmaxIdx_cons2, reduceMax_cons2]
    by_cases h : x < reduceMax (y :: ys)
    · rw [if_pos h, List.getD_cons_succ, ih y, max_eq_right (le_of_lt h)]
    · rw [if_neg h, List.getD_cons_zero, max_eq_left (not_lt.mp h)]

theorem getD_le_reduceMax (x : ℚ) (xs : List ℚ) :
    ∀ j, j < (x :: xs).length → (x :: xs).getD j 0 ≤ reduceMax (x :: xs) := by
  induction xs generalizing x with
  | nil =>
    intro j hj
    simp only [List.length_cons, List.length_nil] at hj
    have hj0 : j = 0 := by omega
    subst hj0
    simp [reduceMax]
  | cons y ys ih =>
    intro j hj
    rw [reduceMax_cons2]
    cases j with
    | zero =>
      rw [List.getD_cons_zero]
      exact le_max_left _ _
    | succ j2 =>
      rw [List.getD_cons_succ]
      have hj2 : j2 < (y :: ys).length := by
        simp only [List.length_cons] at hj ⊢
        omega
      exact le_trans (ih y j2 hj2) (le_max_right _ _)

theorem getD_lt_reduceMax_of_lt_argmaxIdx (x : ℚ) (xs : List ℚ) :
    ∀ j, j < argmaxIdx (x :: xs) → (x :: xs).getD j 0 < reduceMax (x :: xs) := by
  induction xs generalizing x with
  | nil =>
    intro j hj
    rw [show argmaxIdx [x] = 0 from rfl] at hj
    exact absurd hj (Nat.not_lt_zero j)
  | cons y ys ih =>
    intro j hj
    rw [argmaxIdx_cons2] at hj
    by_cases h : x < reduceMax (y :: ys)
    · rw [if_pos h] at hj
      rw [reduceMax_cons2, max_eq_right (le_of_lt h)]
      cases j with
      | zero =>
        rw [List.getD_cons_zero]
        exact h
      | succ j2 =>
        rw [List.getD_cons_succ]
        exact ih y j2 (by omega)
    · rw [if_neg h] at hj
      exact absurd hj (Nat.not_lt_zero j)

theorem reduceMax_nonneg (l : List ℚ) : (∀ s ∈ l, 0 ≤ s) → 0 ≤ reduceMax l := by
  induction l with
  | nil => intro _; simp [reduceMax]
  | cons x xs ih =>
    intro h
    cases xs with
    | nil => simpa [reduceMax] using h x (by simp)
    | cons y ys =>
      rw [reduceMax_cons2]
      exact le_max_of_le_left (h x (by simp))

theorem reduceMax_le_one (l : List ℚ) : (∀ s ∈ l, s ≤ 1) → reduceMax l ≤ 1 := by
  induction l with
  | nil => intro _; simp [reduceMax]
  | cons x xs ih =>
    intro h
    cases xs with
    | nil => simpa [reduceMax] using h x (by simp)
    | cons y ys =>
      rw [reduceMax_cons2]
      exact max_le (h x (by simp)) (ih fun s hs => h s (by simp [hs]))

/-- Closed form of `classify` on a three-score vector, used to evaluate
the pipelines on concrete inputs. -/
theorem classify_three (a b c : ℚ) :
    classify [a, b, c] =
      .ok (max a (max b c) * 100,
        if a < max b c then
          (if b < c then ("Vascular lesion") else ("Squamous cell carcinoma"))
        else ("Melanocytic nevus")) := by
  have hr : reduceMax [a, b, c] = max a (max b c) := by
    rw [reduceMax_cons2, reduceMax_cons2, reduceMax_singleton]
  have hi : argmaxIdx [a, b, c] = if a < max b c then (if b < c then 2 else 1) else 0 := by
    rw [argmaxIdx_cons2, argmaxIdx_cons2, argmaxIdx_singleton, reduceMax_singleton]
    rw [show reduceMax [b, c] = max b c from by rw [reduceMax_cons2, reduceMax_singleton]]
    by_cases h1 : a < max b c
    · by_cases h2 : b < c
      · simp [h1, h2]
      · simp [h1, h2]
    · simp [h1]
  simp only [classify, hr, hi]
  by_cases h1 : a < max b c
  · by_cases h2 : b < c
    · simp [h1, h2, classes]
    · simp [h1, h2, classes]
  · simp [h1, classes]

/-! ## Helper lemmas on the preprocessing -/

theorem lerp_bounds (t a b lo hi : ℚ) (ht0 : 0 ≤ t) (ht1 : t ≤ 1)
    (ha1 : lo ≤ a) (ha2 : a ≤ hi) (hb1 : lo ≤ b) (hb2 : b ≤ hi) :
    lo ≤ lerp t a b ∧ lerp t a b ≤ hi := by
  unfold lerp
  constructor
  · nlinarith [mul_nonneg (by linarith : (0:ℚ) ≤ 1 - t) (by linarith : (0:ℚ) ≤ a - lo),
               mul_nonneg ht0 (by linarith : (0:ℚ) ≤ b - lo)]
  · nlinarith [mul_nonneg (by linarith : (0:ℚ) ≤ 1 - t) (by linarith : (0:ℚ) ≤ hi - a),
               mul_nonneg ht0 (by linarith : (0:ℚ) ≤ hi - b)]

theorem bilerp_bounds (ty tx a b c d lo hi : ℚ)
    (hty0 : 0 ≤ ty) (hty1 : ty ≤ 1) (htx0 : 0 ≤ tx) (htx1 : tx ≤ 1)
    (ha : lo ≤ a ∧ a ≤ hi) (hb : lo ≤ b ∧ b ≤ hi)
    (hc : lo ≤ c ∧ c ≤ hi) (hd : lo ≤ d ∧ d ≤ hi) :
    lo ≤ lerp ty (lerp tx a b) (lerp tx c d) ∧
      lerp ty (lerp tx a b) (lerp tx c d) ≤ hi := by
  have h1 := lerp_bounds tx a b lo hi htx0 htx1 ha.1 ha.2 hb.1 hb.2
  have h2 := lerp_bounds tx c d lo hi htx0 htx1 hc.1 hc.2 hd.1 hd.2
  exact lerp_bounds ty _ _ lo hi hty0 hty1 h1.1 h1.2 h2.1 h2.2

theorem fract_bounds (q : ℚ) : 0 ≤ q - (⌊q⌋ : ℚ) ∧ q - (⌊q⌋ : ℚ) ≤ 1 := by
  constructor
  · linarith [Int.floor_le q]
  · linarith [Int.lt_floor_add_one q]

theorem resizePix_bounds (img : Image) (hv : img.valid) (i j c : Nat) :
    0 ≤ resizePix img i j c ∧ resizePix img i j c ≤ 255 := by
  simp only [resizePix]
  exact bilerp_bounds _ _ _ _ _ _ 0 255
    (fract_bounds _).1 (fract_bounds _).2 (fract_bounds _).1 (fract_bounds _).2
    (hv _ _ _) (hv _ _ _) (hv _ _ _) (hv _ _ _)

theorem resizePix_const (h w : Nat) (v : ℚ) (i j c : Nat) :
    resizePix ⟨h, w, fun _ _ _ => v⟩ i j c = v := by
  simp only [resizePix, lerp]
  ring

theorem preprocess_shape_vals (img : Image) (hv : img.valid) :
    (preprocess img).length = 1 ∧
    ∀ pl ∈ preprocess img, pl.length = 224 ∧
      ∀ row ∈ pl, row.length = 224 ∧
        ∀ px ∈ row, px.length = 3 ∧
          ∀ v ∈ px, 0 ≤ v ∧ v ≤ 1 := by
  constructor
  · rfl
  · intro pl hpl
    simp only [preprocess, List.mem_singleton] at hpl
    subst hpl
    refine ⟨by simp, ?_⟩
    intro row hrow
    simp only [List.mem_map, List.mem_range] at hrow
    obtain ⟨i, hi, rfl⟩ := hrow
    refine ⟨by simp, ?_⟩
    intro px hpx
    simp only [List.mem_map, List.mem_range] at hpx
    obtain ⟨j, hj, rfl⟩ := hpx
    refine ⟨by simp, ?_⟩
    intro v hvv
    simp only [List.mem_map, List.mem_range] at hvv
    obtain ⟨c, hc, rfl⟩ := hvv
    have hb := resizePix_bounds img hv i j c
    constructor
    · exact div_nonneg hb.1 (by norm_num)
    · rw [div_le_one (by norm_num)]
      exact hb.2

theorem headI_map {α β : Type} [Inhabited α] [Inhabited β] (f : α → β) (l : List α)
    (h : l ≠ []) : (l.map f).headI = f l.headI := by
  cases l with
  | nil => exact absurd rfl h
  | cons a t => rfl

theorem headI_range (n : Nat) (h : 0 < n) : (List.range n).headI = 0 := by
  cases n with
  | zero => exact absurd h (by omega)
  | succ m =>
    rw [List.range_succ_eq_map]
    rfl

theorem range_ne_nil (n : Nat) (h : 0 < n) : List.range n ≠ [] := by
  simp only [ne_eq, List.range_eq_nil]
  omega

theorem t0_service_img255 : t0 (servicePreprocess img255) = 255 := by
  have h224 : (0:Nat) < 224 := by norm_num
  have h3 : (0:Nat) < 3 := by norm_num
  unfold t0 servicePreprocess
  simp only [List.headI, headI_map _ _ (range_ne_nil 224 h224), headI_range 224 h224,
             headI_map _ _ (range_ne_nil 3 h3), headI_range 3 h3]
  exact resizePix_const 1 1 255 0 0 0

theorem img255_valid : img255.valid := by
  intro i j c
  constructor <;> norm_num [img255]

/-! ## Claims C4, C5, C7 -/

/-- C4 (code_bug record): the preprocessing of app.py (lines 81-84) and
main.py (lines 135-138) — resize to 224×224, expand to a batch of one,
divide by 255 — maps every decoded image (uint8 pixels, any size) to a
tensor of shape [1, 224, 224, 3] with every value in [0, 1]; whereas the
tensor built by services/inferenceService.py (lines 7-12), which omits
the division by 255 (and whose `.resize` call is not even a tensor
method), carries the raw value 255 — outside [0, 1] — for an all-white
image. -/
theorem c4_preprocessing_contract :
    (∀ img : Image, img.valid →
      (preprocess img).length = 1 ∧
      ∀ pl ∈ preprocess img, pl.length = 224 ∧
        ∀ row ∈ pl, row.length = 224 ∧
          ∀ px ∈ row, px.length = 3 ∧
            ∀ v ∈ px, 0 ≤ v ∧ v ≤ 1) ∧
    t0 (servicePreprocess img255) = 255 ∧
    ¬ (t0 (servicePreprocess img255) ≤ 1) := by
  refine ⟨fun img hv => preprocess_shape_vals img hv, t0_service_img255, ?_⟩
  rw [t0_service_img255]
  norm_num

/-- Witness for C4: the all-white 1×1 image is a valid decoded image, and
the app.py/main.py preprocessing of it satisfies the claimed contract. -/
theorem c4_witness :
    img255.valid ∧
    ((preprocess img255).length = 1 ∧
      ∀ pl ∈ preprocess img255, pl.length = 224 ∧
        ∀ row ∈ pl, row.length = 224 ∧
          ∀ px ∈ row, px.length = 3 ∧
            ∀ v ∈ px, 0 ≤ v ∧ v ≤ 1) :=
  ⟨img255_valid, c4_preprocessing_contract.1 img255 img255_valid⟩

/-- C5: whenever the shared confidence/label extraction returns, the label
is the class name at the arg-max index of the fixed ordered class list,
the arg-max index carries the maximum score, every score is bounded by
the score at the arg-max index, ties are broken by the lowest index
(every strictly earlier index carries a strictly smaller score), and the
confidence is the maximum score times 100, with no re-normalization. -/
theorem c5_argmax_classification (scores : List ℚ) (conf : ℚ) (label : String)
    (hne : scores ≠ []) (h : classify scores = .ok (conf, label)) :
    label = classes.getD (argmaxIdx scores) ("") ∧
    conf = reduceMax scores * 100 ∧
    scores.getD (argmaxIdx scores) 0 = reduceMax scores ∧
    (∀ j, j < scores.length → scores.getD j 0 ≤ scores.getD (argmaxIdx scores) 0) ∧
    (∀ j, j < argmaxIdx scores → scores.getD j 0 < scores.getD (argmaxIdx scores) 0) := by
  obtain ⟨x, xs, rfl⟩ : ∃ x xs, scores = x :: xs := by
    cases scores with
    | nil => exact absurd rfl hne
    | cons a l => exact ⟨a, l, rfl⟩
  cases hc : classes[argmaxIdx (x :: xs)]? with
  | none => simp [classify, hc] at h
  | some lab =>
    simp only [classify, hc, Except.ok.injEq, Prod.mk.injEq] at h
    obtain ⟨h1, h2⟩ := h
    have hget := getD_argmaxIdx x xs
    refine ⟨?_, h1.symm, hget, ?_, ?_⟩
    · rw [← h2, List.getD_eq_getElem?_getD, hc]
      rfl
    · intro j hj
      rw [hget]
      exact getD_le_reduceMax x xs j hj
    · intro j hj
      rw [hget]
      exact getD_lt_reduceMax_of_lt_argmaxIdx x xs j hj

/-- Witness for C5 at the score vector [1/2, 1/2, 1/4]: a tie between the
first two scores is resolved to index 0, confidence 50. -/
theorem c5_witness :
    (([1/2, 1/2, 1/4] : List ℚ) ≠ []) ∧
    classify [1/2, 1/2, 1/4] = .ok (50, ("Melanocytic nevus")) ∧
    ((("Melanocytic nevus") : String) = classes.getD (argmaxIdx [1/2, 1/2, 1/4]) ("") ∧
     (50 : ℚ) = reduceMax [1/2, 1/2, 1/4] * 100 ∧
     ([1/2, 1/2, 1/4] : List ℚ).getD (argmaxIdx [1/2, 1/2, 1/4]) 0 = reduceMax [1/2, 1/2, 1/4] ∧
     (∀ j, j < ([1/2, 1/2, 1/4] : List ℚ).length →
       ([1/2, 1/2, 1/4] : List ℚ).getD j 0 ≤
         ([1/2, 1/2, 1/4] : List ℚ).getD (argmaxIdx [1/2, 1/2, 1/4]) 0) ∧
     (∀ j, j < argmaxIdx [1/2, 1/2, 1/4] →
       ([1/2, 1/2, 1/4] : List ℚ).getD j 0 <
         ([1/2, 1/2, 1/4] : List ℚ).getD (argmaxIdx [1/2, 1/2, 1/4]) 0)) :=
  ⟨by decide, by rw [classify_three]; norm_num [max_def],
    c5_argmax_classification [1/2, 1/2, 1/4] 50 ("Melanocytic nevus")
      (by decide) (by rw [classify_three]; norm_num [max_def])⟩

/-- C7: whenever the classifier returns — with the model honouring its
output-layer contract that every score lies in [0, 1] — the returned
label is a member of the fixed class list and the confidence lies in
[0, 100]. -/
theorem c7_classifier_invariant (scores : List ℚ) (conf : ℚ) (label : String)
    (hrange : ∀ s ∈ scores, 0 ≤ s ∧ s ≤ 1)
    (h : classify scores = .ok (conf, label)) :
    label ∈ classes ∧ 0 ≤ conf ∧ conf ≤ 100 := by
  cases hc : classes[argmaxIdx scores]? with
  | none => simp [classify, hc] at h
  | some lab =>
    simp only [classify, hc, Except.ok.injEq, Prod.mk.injEq] at h
    obtain ⟨h1, h2⟩ := h
    refine ⟨?_, ?_, ?_⟩
    · rw [← h2]
      exact List.getElem?_mem hc
    · rw [← h1]
      exact mul_nonneg (reduceMax_nonneg scores fun s hs => (hrange s hs).1) (by norm_num)
    · rw [← h1]
      have hle := reduceMax_le_one scores fun s hs => (hrange s hs).2
      linarith

/-- Witness for C7 at the score vector [1/10, 3/5, 3/10]: label is the
second class, confidence 60. -/
theorem c7_witness :
    (∀ s ∈ ([1/10, 3/5, 3/10] : List ℚ), 0 ≤ s ∧ s ≤ 1) ∧
    classify [1/10, 3/5, 3/10] = .ok (60, ("Squamous cell carcinoma")) ∧
    ((("Squamous cell carcinoma") : String) ∈ classes ∧ (0:ℚ) ≤ 60 ∧ (60:ℚ) ≤ 100) :=
  have hr : ∀ s ∈ ([1/10, 3/5, 3/10] : List ℚ), 0 ≤ s ∧ s ≤ 1 := by
    intro s hs
    simp only [List.mem_cons, List.not_mem_nil, or_false] at hs
    rcases hs with rfl | rfl | rfl <;> norm_num
  have hcl : classify [1/10, 3/5, 3/10] = .ok (60, ("Squamous cell carcinoma")) := by
    rw [classify_three]; norm_num [max_def]
  ⟨hr, hcl, c7_classifier_invariant [1/10, 3/5, 3/10] 60 ("Squamous cell carcinoma") hr hcl⟩

/-! ## Evaluation lemmas at the concrete environments -/

theorem appPredict30 :
    App.predict_classification cModel30 cDecode [] = .ok rA30 := by
  simp only [App.predict_classification, cDecode, cModel30]
  rw [classify_three]
  norm_num [max_def, appAdvisory, rA30]

theorem appPredict60 :
    App.predict_classification cModel60 cDecode [] = .ok rA60 := by
  simp only [App.predict_classification, cDecode, cModel60]
  rw [classify_three]
  norm_num [max_def, appAdvisory, rA60]

theorem mainPredict30 :
    MainRev.predict_classification cModel30 cDecode [] = .ok rM30 := by
  simp only [MainRev.predict_classification, cDecode, cModel30]
  rw [classify_three]
  norm_num [max_def, mainAdvisory, rM30]

theorem mainPredict60 :
    MainRev.predict_classification cModel60 cDecode [] = .ok rM60 := by
  simp only [MainRev.predict_classification, cDecode, cModel60]
  rw [classify_three]
  norm_num [max_def, mainAdvisory, rM60]

/-- Every request with a decodable image dies inside the service
inference at the resize step, whatever the model handle holds. -/
theorem svcPredictRaises (model : Option ModelFn) (decode : DecodeFn)
    (bytes : ByteSeq) (img : Image) (hd : decode bytes = .ok img) :
    Server.predict_classification model decode bytes = .error (inputErrMsg svcResizeErr) := by
  simp [Server.predict_classification, hd]

theorem appPredictBoom :
    App.predict_classification cModelFail cDecode [] = .error (inputErrMsg ("boom")) := by
  simp [App.predict_classification, cDecode, cModelFail]

theorem underMsgApp_ne_successMsg : underMsgApp ≠ successMsg := by decide

theorem mainLowMsg_ne_mainOkMsg : mainLowMsg ≠ mainOkMsg := by decide

/-- The server handler never answers 201: with no image it answers 400,
and with an image the inference raises at the resize step — decodable or
not — so the response is again 400. -/
theorem serverNever201 (model : Option ModelFn) (decode : DecodeFn)
    (imageFile : Option ByteSeq) (storeErr : Option String) (u t : String) :
    (Server.post_predict_handler model decode imageFile storeErr u t).1 ≠ 201 := by
  cases imageFile with
  | none => simp [Server.post_predict_handler]
  | some bytes =>
    cases hd : decode bytes with
    | error e => simp [Server.post_predict_handler, Server.predict_classification, hd]
    | ok img => simp [Server.post_predict_handler, Server.predict_classification, hd]

theorem ite_eq_iff_of_ne {α : Type} (c : Prop) [Decidable c] (a b : α) (hne : b ≠ a) :
    ((if c then a else b) = a) ↔ c := by
  by_cases h : c
  · simp [h]
  · simp [h, hne]

/-! ## Claims C1, C2, C3 -/

/-- C1 counterexample: in src/app.py the success-message threshold is
`confidence_score > 0.99` (line 140), so a run whose confidence is 30 —
not strictly greater than 50 — is still answered with the "prediction
succeeded" message (and HTTP 201), refuting "success message iff
confidence strictly greater than 50.0". -/
theorem c1_counterexample :
    App.predict_classification cModel30 cDecode [] = .ok rA30
  ∧ rA30.confidence = 30
  ∧ ¬ ((30 : ℚ) > 50)
  ∧ (App.post_predict_handler (some cModel30) cDecode (some []) true none ("u1") ("t1")).1 = 201
  ∧ (App.post_predict_handler (some cModel30) cDecode (some []) true none ("u1") ("t1")).2.1.message
      = successMsg
  ∧ successMsg ≠ underMsgApp := by
  refine ⟨appPredict30, by norm_num [rA30], by norm_num, ?_, ?_, by decide⟩
  · simp [App.post_predict_handler, appPredict30]
  · simp only [App.post_predict_handler, appPredict30]
    rw [if_pos (show rA30.confidence > 99 / 100 by norm_num [rA30])]

/-- C1 (amended): on the success path app.py and main.py answer HTTP 201
regardless of the confidence value, but the success-message threshold
differs: the message equals the success message iff confidence is
strictly greater than 0.99 in app.py and iff strictly greater than 50 in
main.py — the claimed strictly-greater-than-50.0 boundary holds exactly
for the handler of main.py; the server revision has no success path at
all: its handler never answers 201, because every inference attempt
raises at the resize step before the model is invoked. -/
theorem c1_threshold_per_revision
    (m : ModelFn) (decode : DecodeFn) (bytes : ByteSeq)
    (dbPresent : Bool) (storeErr : Option String) (u t : String)
    (rA rM : PredictOk)
    (hA : App.predict_classification m decode bytes = .ok rA)
    (hM : MainRev.predict_classification m decode bytes = .ok rM) :
    (App.post_predict_handler (some m) decode (some bytes) dbPresent storeErr u t).1 = 201
  ∧ ((App.post_predict_handler (some m) decode (some bytes) dbPresent storeErr u t).2.1.message
      = successMsg ↔ rA.confidence > 99 / 100)
  ∧ (MainRev.predict_handler (some m) decode (some bytes) dbPresent storeErr u t).1 = 201
  ∧ ((MainRev.predict_handler (some m) decode (some bytes) dbPresent storeErr u t).2.1.message
      = mainOkMsg ↔ rM.confidence > 50)
  ∧ (∀ (model : Option ModelFn) (imageFile : Option ByteSeq),
      (Server.post_predict_handler model decode imageFile storeErr u t).1 ≠ 201) := by
  refine ⟨?_, ?_, ?_, ?_, ?_⟩
  · simp [App.post_predict_handler, hA]
  · simp only [App.post_predict_handler, hA]
    exact ite_eq_iff_of_ne _ _ _ underMsgApp_ne_successMsg
  · simp [MainRev.predict_handler, hM]
  · simp only [MainRev.predict_handler, hM]
    exact ite_eq_iff_of_ne _ _ _ mainLowMsg_ne_mainOkMsg
  · intro model imageFile
    exact serverNever201 model decode imageFile storeErr u t

/-- Witness for C1 at confidence 60: main.py gives the success message
(60 > 50), app.py gives it too (60 > 0.99), both with 201; the server
handler answers 201 for no request at all. -/
theorem c1_witness :
    (App.post_predict_handler (some cModel60) cDecode (some []) true none ("u1") ("t1")).1 = 201
  ∧ ((App.post_predict_handler (some cModel60) cDecode (some []) true none ("u1") ("t1")).2.1.message
      = successMsg ↔ rA60.confidence > 99 / 100)
  ∧ (MainRev.predict_handler (some cModel60) cDecode (some []) true none ("u1") ("t1")).1 = 201
  ∧ ((MainRev.predict_handler (some cModel60) cDecode (some []) true none ("u1") ("t1")).2.1.message
      = mainOkMsg ↔ rM60.confidence > 50)
  ∧ (∀ (model : Option ModelFn) (imageFile : Option ByteSeq),
      (Server.post_predict_handler model cDecode imageFile none ("u1") ("t1")).1 ≠ 201) :=
  c1_threshold_per_revision cModel60 cDecode [] true none ("u1") ("t1") rA60 rM60
    appPredict60 mainPredict60

/-- C2 counterexample: in src/app.py a model invocation failure on a
decodable input (model raising "boom") is wrapped as InputError and
answered HTTP 400 with status "fail" — a 400-class client error, not the
claimed 500. -/
theorem c2_counterexample :
    App.predict_classification cModelFail cDecode [] = .error (inputErrMsg ("boom"))
  ∧ (App.post_predict_handler (some cModelFail) cDecode (some []) true none ("u2") ("t2")).1 = 400
  ∧ (App.post_predict_handler (some cModelFail) cDecode (some []) true none ("u2") ("t2")).2.1.status
      = ("fail")
  ∧ ((400 : Nat) ≠ 500) := by
  refine ⟨appPredictBoom, ?_, ?_, by decide⟩ <;>
    simp [App.post_predict_handler, appPredictBoom]

/-- C2 (amended): a model invocation failure on a structurally valid,
decodable input is reported as HTTP 500 with status "error" only by
main.py (whose predict raises ValueError, caught by the generic
handler); app.py wraps the failure as InputError — a 400-class client
error — and answers HTTP 400 with status "fail"; in the server revision
the model is never invoked at all: every decodable input already raises
at the preprocessing resize step, wrapped as InputError, and is answered
HTTP 400 with status "fail" whatever the model handle holds.  No
revision defines an InferenceError. -/
theorem c2_inference_failure_paths
    (m : ModelFn) (decode : DecodeFn) (bytes : ByteSeq) (img : Image) (msg : String)
    (dbPresent : Bool) (storeErr : Option String) (u t : String)
    (hd : decode bytes = .ok img) (hm : ∀ ten : Tensor, m ten = .error msg) :
    App.post_predict_handler (some m) decode (some bytes) dbPresent storeErr u t
      = (400, ⟨"fail", inputErrMsg msg, none⟩, [])
  ∧ MainRev.predict_handler (some m) decode (some bytes) dbPresent storeErr u t
      = (500, ⟨"error", ("Kesalahan internal: ") ++ (("Gagal melakukan prediksi: ") ++ msg), none⟩, [])
  ∧ (∀ model : Option ModelFn,
      Server.post_predict_handler model decode (some bytes) storeErr u t
        = (400, ⟨"fail", inputErrMsg svcResizeErr ++ (" Silakan gunakan foto lain."), none⟩, [])) := by
  have hA : App.predict_classification m decode bytes = .error (inputErrMsg msg) := by
    simp [App.predict_classification, hd, hm]
  have hM : MainRev.predict_classification m decode bytes
      = .error (("Gagal melakukan prediksi: ") ++ msg) := by
    simp [MainRev.predict_classification, hd, hm]
  refine ⟨?_, ?_, ?_⟩
  · simp [App.post_predict_handler, hA]
  · simp [MainRev.predict_handler, hM]
  · intro model
    simp [Server.post_predict_handler, svcPredictRaises model decode bytes img hd]

/-- Witness for C2 with the always-failing model and a decodable input. -/
theorem c2_witness :
    cDecode [] = .ok cImg
  ∧ (App.post_predict_handler (some cModelFail) cDecode (some []) true none ("u2") ("t2")
      = (400, ⟨"fail", inputErrMsg ("boom"), none⟩, [])
    ∧ MainRev.predict_handler (some cModelFail) cDecode (some []) true none ("u2") ("t2")
      = (500, ⟨"error", ("Kesalahan internal: ") ++ (("Gagal melakukan prediksi: ") ++ ("boom")), none⟩, [])
    ∧ (∀ model : Option ModelFn,
        Server.post_predict_handler model cDecode (some []) none ("u2") ("t2")
          = (400, ⟨"fail", inputErrMsg svcResizeErr ++ (" Silakan gunakan foto lain."), none⟩, []))) :=
  ⟨rfl, c2_inference_failure_paths cModelFail cDecode [] cImg ("boom") true none ("u2") ("t2")
    rfl (fun _ => rfl)⟩

/-- C3: a failure of the store write never changes the HTTP response.
In app.py and main.py the write exception is caught and logged inside the
store helper, so the whole response (status, body and attempted writes)
is identical with a throwing and with a working store; in the server
revision the write is unguarded (services/storeData.py), but no request
ever reaches the persistence step — every inference attempt raises at
the resize step first — so its response is likewise independent of the
store and its write list is always empty. -/
theorem c3_store_isolation
    (model : Option ModelFn) (decode : DecodeFn) (imageFile : Option ByteSeq)
    (dbPresent : Bool) (e : String) (storeErr : Option String) (u t : String) :
    (App.post_predict_handler model decode imageFile dbPresent (some e) u t
      = App.post_predict_handler model decode imageFile dbPresent none u t)
  ∧ (MainRev.predict_handler model decode imageFile dbPresent (some e) u t
      = MainRev.predict_handler model decode imageFile dbPresent none u t)
  ∧ (Server.post_predict_handler model decode imageFile (some e) u t
      = Server.post_predict_handler model decode imageFile none u t)
  ∧ (Server.post_predict_handler model decode imageFile storeErr u t).2.2 = [] := by
  refine ⟨rfl, rfl, ?_, ?_⟩ <;>
  · cases imageFile with
    | none => rfl
    | some bytes =>
      cases hd : decode bytes with
      | error er => simp [Server.post_predict_handler, Server.predict_classification, hd]
      | ok img => simp [Server.post_predict_handler, Server.predict_classification, hd]

/-! ## Claim C6 -/

/-- C6 counterexample: the advisory lookup of every revision, given the
unrecognized label "Basal cell carcinoma", silently returns the default
empty advisory pair (the `None` pair in inferenceService.py) instead of
failing loudly — there is no UnknownLabelError anywhere. -/
theorem c6_counterexample :
    appAdvisory ("Basal cell carcinoma") = (("") , (""))
  ∧ mainAdvisory ("Basal cell carcinoma") = (("") , (""))
  ∧ svcAdvisory ("Basal cell carcinoma") = (none, none) := by
  refine ⟨by decide, by decide, by decide⟩

/-- C6 (amended): the advisory lookup is a pure total deterministic
function; each of the three class labels maps to its own fixed, pairwise
distinct (explanation, suggestion) pair; but any label outside the fixed
class list silently yields the default empty pair — ("", "") in app.py
and main.py, (None, None) in inferenceService.py — rather than failing
loudly. -/
theorem c6_advisory_behaviour :
    (∀ l : String, l ∉ classes →
      appAdvisory l = (("") , (""))
      ∧ mainAdvisory l = (("") , (""))
      ∧ svcAdvisory l = (none, none))
  ∧ appAdvisory ("Melanocytic nevus") = (mnExp, mnSug)
  ∧ appAdvisory ("Squamous cell carcinoma") = (sccExp, sccSug)
  ∧ appAdvisory ("Vascular lesion") = (vlExp, vlSug)
  ∧ (mnExp, mnSug) ≠ (sccExp, sccSug)
  ∧ (mnExp, mnSug) ≠ (vlExp, vlSug)
  ∧ (sccExp, sccSug) ≠ (vlExp, vlSug)
  ∧ (∀ l : String, appAdvisory l = appAdvisory l) := by
  refine ⟨?_, by decide, by decide, by decide, by decide, by decide, by decide, fun l => rfl⟩
  intro l hl
  simp only [classes, List.mem_cons, List.not_mem_nil, or_false] at hl
  push_neg at hl
  obtain ⟨h1, h2, h3⟩ := hl
  refine ⟨?_, ?_, ?_⟩ <;> simp [appAdvisory, mainAdvisory, svcAdvisory, h1, h2, h3]

/-- Witness for C6 at the unrecognized label "Actinic keratosis". -/
theorem c6_witness :
    (("Actinic keratosis" : String) ∉ classes)
  ∧ (appAdvisory ("Actinic keratosis") = (("") , (""))
     ∧ mainAdvisory ("Actinic keratosis") = (("") , (""))
     ∧ svcAdvisory ("Actinic keratosis") = (none, none)) :=
  ⟨by decide, c6_advisory_behaviour.1 ("Actinic keratosis") (by decide)⟩

/-! ## Claim C8 -/

/-- C8 counterexample: the handler of the server revision performs no model
check at all — with the model absent and a decodable image present, the
request proceeds into inference, fails there, and is answered HTTP 400
with status "fail", not the claimed short-circuit 500 with status
"error". -/
theorem c8_counterexample :
    (Server.post_predict_handler none cDecode (some []) none ("u8") ("t8")).1 = 400
  ∧ (Server.post_predict_handler none cDecode (some []) none ("u8") ("t8")).2.1.status = ("fail")
  ∧ ((400 : Nat) ≠ 500) := by
  refine ⟨?_, ?_, by decide⟩ <;>
    simp [Server.post_predict_handler, Server.predict_classification, cDecode]

/-- C8 (amended): app.py and main.py check the model handle first, before
the uploaded file: with the model handle absent they answer 500 with
status "error" for every request whatsoever (the image field is never
consulted); server/handler.py has no such check, and with the model
absent a request carrying a decodable image is answered 400 with status
"fail" out of the inference failure. -/
theorem c8_model_gate (decode : DecodeFn) (imageFile : Option ByteSeq)
    (dbPresent : Bool) (storeErr : Option String) (u t : String) :
    App.post_predict_handler none decode imageFile dbPresent storeErr u t
      = (500, ⟨"error", "Model not loaded", none⟩, [])
  ∧ MainRev.predict_handler none decode imageFile dbPresent storeErr u t
      = (500, ⟨"error", "Model tidak tersedia", none⟩, [])
  ∧ (Server.post_predict_handler none cDecode (some []) none ("u8b") ("t8b")).1 = 400 := by
  refine ⟨rfl, rfl, ?_⟩
  simp [Server.post_predict_handler, Server.predict_classification, cDecode]

/-! ## Claim C9 -/

/-- C9 counterexample: a successful app.py inference — answered HTTP 201
— persists a record containing only the keys {id, result, suggestion,
createdAt}: the claimed fields explanation and confidence are absent. -/
theorem c9_counterexample :
    (App.post_predict_handler (some cModel30) cDecode (some []) true none ("u9") ("t9")).1 = 201
  ∧ (((App.post_predict_handler (some cModel30) cDecode (some []) true none ("u9") ("t9")).2.1.data.getD []).map Prod.fst)
      = ["id", "result", "suggestion", "createdAt"]
  ∧ (("explanation" : String) ∉ (["id", "result", "suggestion", "createdAt"] : List String))
  ∧ (("confidence" : String) ∉ (["id", "result", "suggestion", "createdAt"] : List String)) := by
  refine ⟨?_, ?_, by decide, by decide⟩ <;>
    simp [App.post_predict_handler, appPredict30, App.store_data]

/-- C9 (amended): in main.py, per successful inference exactly one store
write is submitted, keyed by the freshly generated id, and the record it
carries has exactly the fields {id, result, explanation, suggestion,
confidence, createdAt} with the fresh id and the timestamp of the request; no
update or delete operation exists anywhere in the pipelines. -/
theorem c9_record_write (m : ModelFn) (decode : DecodeFn) (bytes : ByteSeq)
    (storeErr : Option String) (u t : String) (r : PredictOk)
    (h : MainRev.predict_classification m decode bytes = .ok r) :
    (MainRev.predict_handler (some m) decode (some bytes) true storeErr u t).2.2
      = [⟨u, [("id", JVal.str u), ("result", JVal.str r.label),
              ("explanation", JVal.str r.explanation), ("suggestion", JVal.str r.suggestion),
              ("confidence", JVal.num r.confidence), ("createdAt", JVal.str t)]⟩]
  ∧ (MainRev.predict_handler (some m) decode (some bytes) true storeErr u t).2.1.data
      = some [("id", JVal.str u), ("result", JVal.str r.label),
              ("explanation", JVal.str r.explanation), ("suggestion", JVal.str r.suggestion),
              ("confidence", JVal.num r.confidence), ("createdAt", JVal.str t)]
  ∧ ([("id", JVal.str u), ("result", JVal.str r.label),
      ("explanation", JVal.str r.explanation), ("suggestion", JVal.str r.suggestion),
      ("confidence", JVal.num r.confidence), ("createdAt", JVal.str t)].map Prod.fst
      = ["id", "result", "explanation", "suggestion", "confidence", "createdAt"]) := by
  refine ⟨?_, ?_, by simp⟩ <;> simp [MainRev.predict_handler, h]

/-- Witness for C9 at the concrete environment (main.py, confidence 30,
fresh id "u9w", timestamp "t9w"). -/
theorem c9_witness :
    (MainRev.predict_handler (some cModel30) cDecode (some []) true none ("u9w") ("t9w")).2.2
      = [⟨("u9w"), [("id", JVal.str ("u9w")), ("result", JVal.str rM30.label),
              ("explanation", JVal.str rM30.explanation), ("suggestion", JVal.str rM30.suggestion),
              ("confidence", JVal.num rM30.confidence), ("createdAt", JVal.str ("t9w"))]⟩]
  ∧ (MainRev.predict_handler (some cModel30) cDecode (some []) true none ("u9w") ("t9w")).2.1.data
      = some [("id", JVal.str ("u9w")), ("result", JVal.str rM30.label),
              ("explanation", JVal.str rM30.explanation), ("suggestion", JVal.str rM30.suggestion),
              ("confidence", JVal.num rM30.confidence), ("createdAt", JVal.str ("t9w"))]
  ∧ ([("id", JVal.str ("u9w")), ("result", JVal.str rM30.label),
      ("explanation", JVal.str rM30.explanation), ("suggestion", JVal.str rM30.suggestion),
      ("confidence", JVal.num rM30.confidence), ("createdAt", JVal.str ("t9w"))].map Prod.fst
      = ["id", "result", "explanation", "suggestion", "confidence", "createdAt"]) :=
  c9_record_write cModel30 cDecode [] none ("u9w") ("t9w") rM30 mainPredict30

/-! ## Claim C10 -/

/-- C10: in every revision, whenever the handler answers 201, every
record submitted to the store is exactly the `data` object of the
response body, keyed by the freshly generated id — the client sees
precisely what was (attempted to be) persisted. -/
theorem c10_response_matches_store
    (model : Option ModelFn) (decode : DecodeFn) (imageFile : Option ByteSeq)
    (dbPresent : Bool) (storeErr : Option String) (u t : String) :
    ((App.post_predict_handler model decode imageFile dbPresent storeErr u t).1 = 201 →
      ∀ w ∈ (App.post_predict_handler model decode imageFile dbPresent storeErr u t).2.2,
        some w.data = (App.post_predict_handler model decode imageFile dbPresent storeErr u t).2.1.data
          ∧ w.docId = u)
  ∧ ((MainRev.predict_handler model decode imageFile dbPresent storeErr u t).1 = 201 →
      ∀ w ∈ (MainRev.predict_handler model decode imageFile dbPresent storeErr u t).2.2,
        some w.data = (MainRev.predict_handler model decode imageFile dbPresent storeErr u t).2.1.data
          ∧ w.docId = u)
  ∧ ((Server.post_predict_handler model decode imageFile storeErr u t).1 = 201 →
      ∀ w ∈ (Server.post_predict_handler model decode imageFile storeErr u t).2.2,
        some w.data = (Server.post_predict_handler model decode imageFile storeErr u t).2.1.data
          ∧ w.docId = u) := by
  refine ⟨?_, ?_, ?_⟩
  · intro h201 w hw
    cases model with
    | none => simp [App.post_predict_handler] at h201
    | some m =>
      cases imageFile with
      | none => simp [App.post_predict_handler] at h201
      | some bytes =>
        cases hp : App.predict_classification m decode bytes with
        | error e => simp [App.post_predict_handler, hp] at h201
        | ok r =>
          cases dbPresent with
          | false => simp [App.post_predict_handler, hp, App.store_data] at hw
          | true =>
            simp only [App.post_predict_handler, hp, App.store_data, if_true] at hw
            simp at hw
            subst hw
            simp [App.post_predict_handler, hp]
  · intro h201 w hw
    cases model with
    | none => simp [MainRev.predict_handler] at h201
    | some m =>
      cases imageFile with
      | none => simp [MainRev.predict_handler] at h201
      | some bytes =>
        cases hp : MainRev.predict_classification m decode bytes with
        | error e => simp [MainRev.predict_handler, hp] at h201
        | ok r =>
          cases dbPresent with
          | false => simp [MainRev.predict_handler, hp] at hw
          | true =>
            simp only [MainRev.predict_handler, hp, if_true] at hw
            simp at hw
            subst hw
            simp [MainRev.predict_handler, hp]
  · intro h201 w hw
    cases imageFile with
    | none => simp [Server.post_predict_handler] at h201
    | some bytes =>
      cases hp : Server.predict_classification model decode bytes with
      | error e => simp [Server.post_predict_handler, hp] at h201
      | ok r =>
        cases storeErr with
        | some e => simp [Server.post_predict_handler, hp] at h201
        | none => simp [Server.post_predict_handler, hp] at h201

/-- Witness for C10 at the concrete app.py run with id "u10": the single
submitted record equals the `data` object of the response. -/
theorem c10_witness :
    some (StoreWrite.data ⟨("u10"), cData10⟩)
      = (App.post_predict_handler (some cModel30) cDecode (some []) true none ("u10") ("t10")).2.1.data
  ∧ (StoreWrite.docId ⟨("u10"), cData10⟩) = ("u10") :=
  (c10_response_matches_store (some cModel30) cDecode (some []) true none ("u10") ("t10")).1
    (by simp [App.post_predict_handler, appPredict30])
    ⟨("u10"), cData10⟩
    (by simp [App.post_predict_handler, appPredict30, App.store_data, cData10, rA30])

end Sertamulia
